import Mathlib

/-!
Verification of the AlertIQ alert-email processing pipeline.

This file gives a shallow embedding, in Lean 4, of the parts of the
repository that the checked properties talk about:

* `src/llm_analyzer.py` — extraction and validation of the classifier
  response (`_parse_gemini_response`, `analyze_email` with its retry
  decorator);
* `src/database.py` — the CSV audit log (`save_processed_email`,
  `check_duplicate`, `get_processing_stats`, `get_processed_emails`,
  `cleanup_old_records`);
* `src/processor.py` — the per-cycle orchestration (`process_alerts`,
  `_process_single_email`);
* `src/email_sender.py` — the error-notification path
  (`send_error_notification`);
* `src/scheduler.py` / `src/main.py` — `run_once` and the one-shot exit
  code.

Text is modelled as `List Char`; timestamps as integers (seconds); real
numbers (the model confidence) as rationals.  The data classes of
`src/models.py` (absent from the source tree; documented by the spec and
by `tests/test_models.py`) are modelled from the spec where noted.
-/

/-- Text is modelled as a list of characters, which makes the index and
slice arithmetic of the Python source direct. -/
abbrev Str := List Char

/-- Opening curly brace character. -/
def obrace : Char := Char.ofNat 123

/-- Closing curly brace character. -/
def cbrace : Char := Char.ofNat 125

/-- Double-quote character. -/
def dquote : Char := Char.ofNat 34

/-- Backslash character. -/
def bslash : Char := Char.ofNat 92

/-- Whitespace test matching the default Python `str.strip` / JSON
whitespace classes (space, tab, newline, carriage return, vertical tab,
form feed). -/
def isWsChar (c : Char) : Bool :=
  c = ' ' || c = Char.ofNat 9 || c = Char.ofNat 10 || c = Char.ofNat 13 ||
  c = Char.ofNat 11 || c = Char.ofNat 12

/-- Model of Python `str.strip()`: drop whitespace from both ends. -/
def pyStrip (s : Str) : Str :=
  ((s.dropWhile isWsChar).reverse.dropWhile isWsChar).reverse

/-- Model of Python `str.find(c)`: index of the first occurrence, if any. -/
def pyFind (c : Char) (s : Str) : Option Nat :=
  s.findIdx? (fun x => x = c)

/-- Model of Python `str.rfind(c)`: index of the last occurrence, if any. -/
def pyRfind (c : Char) (s : Str) : Option Nat :=
  (s.reverse.findIdx? (fun x => x = c)).map (fun i => s.length - 1 - i)

/-- Model of the Python slice `s[a:b]` (with `0 ≤ a ≤ b` the interesting
case; an empty list results when `b ≤ a`, as in Python). -/
def pySlice (s : Str) (a b : Nat) : Str :=
  (s.take b).drop a

/-- Action categories, from the `ActionType` enum of `src/models.py`
(values asserted by `tests/test_models.py`): `Re-hit`, `Backend`, `Code`. -/
inductive ActionType where
  | rehit
  | backend
  | code
deriving DecidableEq, Repr

/-- String value of an action, as stored in prompts and CSV rows. -/
def ActionType.val : ActionType → Str
  | .rehit => "Re-hit".toList
  | .backend => "Backend".toList
  | .code => "Code".toList

/-- Inverse of `ActionType.val`: membership test used by the response
validation (`action not in [e.value for e in ActionType]`). -/
def strToAction (s : Str) : Option ActionType :=
  if s = "Re-hit".toList then some .rehit
  else if s = "Backend".toList then some .backend
  else if s = "Code".toList then some .code
  else none

/-- Modelled from the spec: the `LLMAnalysis` data class of
`src/models.py` (absent from the source tree): an action, a reason that
must be non-whitespace, and an optional confidence bounded in [0, 1].
The validation itself is modelled by `mkLLMAnalysis` below. -/
structure LLMAnalysis where
  action : ActionType
  reason : Str
  confidence : Option ℚ
deriving DecidableEq, Repr

/-- JSON values, the result type of the modelled `json.loads`. -/
inductive Json where
  | null
  | bool (b : Bool)
  | num (q : ℚ)
  | str (s : Str)
  | arr (xs : List Json)
  | obj (kvs : List (Str × Json))

/-- Lookup in a decoded JSON object.  Python builds a `dict` while
decoding, so a repeated key keeps its last binding; the fold reproduces
that. -/
def jlookup (kvs : List (Str × Json)) (k : Str) : Option Json :=
  kvs.foldl (fun acc p => if p.1 = k then some p.2 else acc) none

/-- String-literal body scanner of the JSON decoder model: consumes
characters after an opening quote up to the closing quote, decoding the
common escapes. -/
def pStrBody : Str → Option (Str × Str)
  | [] => none
  | c :: rest =>
    if c = dquote then some ([], rest)
    else if c = bslash then
      match rest with
      | [] => none
      | e :: rest2 =>
        let dec : Option Char :=
          if e = dquote then some dquote
          else if e = bslash then some bslash
          else if e = '/' then some '/'
          else if e = 'n' then some (Char.ofNat 10)
          else if e = 't' then some (Char.ofNat 9)
          else if e = 'r' then some (Char.ofNat 13)
          else if e = 'b' then some (Char.ofNat 8)
          else if e = 'f' then some (Char.ofNat 12)
          else none
        match dec with
        | none => none
        | some ch => (pStrBody rest2).map (fun p => (ch :: p.1, p.2))
    else (pStrBody rest).map (fun p => (c :: p.1, p.2))

/-- Digit list to natural number. -/
def digitsToNat (ds : Str) : Nat :=
  ds.foldl (fun acc c => acc * 10 + (c.toNat - 48)) 0

/-- Number scanner of the JSON decoder model: optional minus sign,
integer part, optional fraction, optional exponent; the value is exact
as a rational, built with integer arithmetic and one `mkRat` so that it
evaluates inside the kernel. -/
def pNum (s : Str) : Option (ℚ × Str) :=
  let neg := s.head? = some '-'
  let s1 := if neg then s.drop 1 else s
  let ds := s1.takeWhile (fun c => c.isDigit)
  if ds = [] then none else
  let rest1 := s1.drop ds.length
  let fracInfo : Option (Str × Nat × Str) :=
    if rest1.head? = some '.' then
      let fs := (rest1.drop 1).takeWhile (fun c => c.isDigit)
      if fs = [] then none
      else some (ds ++ fs, fs.length, (rest1.drop 1).drop fs.length)
    else some (ds, 0, rest1)
  match fracInfo with
  | none => none
  | some (digs, flen, rest2) =>
    let expInfo : Option (Bool × Nat × Str) :=
      if rest2.head? = some 'e' || rest2.head? = some 'E' then
        let t := rest2.drop 1
        let eneg := t.head? = some '-'
        let t1 := if eneg || t.head? = some '+' then t.drop 1 else t
        let es := t1.takeWhile (fun c => c.isDigit)
        if es = [] then none
        else some (eneg, digitsToNat es, t1.drop es.length)
      else some (false, 0, rest2)
    match expInfo with
    | none => none
    | some (eneg, e, rest3) =>
      let m : Nat := digitsToNat digs
      let num : Nat := if eneg then m else m * 10 ^ e
      let den : Nat := if eneg then 10 ^ (flen + e) else 10 ^ flen
      some (mkRat (if neg then -(num : Int) else (num : Int)) den, rest3)

/-- Comma-separated JSON array elements, parameterised by the value
scanner for the enclosing fuel level. -/
def pElems (pV : Str → Option (Json × Str)) : Nat → List Json → Str →
    Option (List Json × Str)
  | 0, _, _ => none
  | fuel + 1, acc, s =>
    match pV s with
    | none => none
    | some (v, rest) =>
      match (rest.dropWhile isWsChar) with
      | [] => none
      | c :: rest2 =>
        if c = ',' then pElems pV fuel (acc ++ [v]) rest2
        else if c = ']' then some (acc ++ [v], rest2)
        else none

/-- Comma-separated JSON object members, parameterised by the value
scanner for the enclosing fuel level. -/
def pMembers (pV : Str → Option (Json × Str)) : Nat → List (Str × Json) →
    Str → Option (List (Str × Json) × Str)
  | 0, _, _ => none
  | fuel + 1, acc, s =>
    match s.dropWhile isWsChar with
    | [] => none
    | c :: rest =>
      if c = dquote then
        match pStrBody rest with
        | none => none
        | some (k, rest1) =>
          match rest1.dropWhile isWsChar with
          | [] => none
          | c2 :: rest2 =>
            if c2 = ':' then
              match pV rest2 with
              | none => none
              | some (v, rest3) =>
                match rest3.dropWhile isWsChar with
                | [] => none
                | c3 :: rest4 =>
                  if c3 = ',' then pMembers pV fuel (acc ++ [(k, v)]) rest4
                  else if c3 = cbrace then some (acc ++ [(k, v)], rest4)
                  else none
            else none
      else none

/-- JSON value scanner with fuel (the fuel bounds the nesting and the
member count, and is chosen larger than the input length at the top
entry point `jsonLoads`). -/
def pVal : Nat → Str → Option (Json × Str)
  | 0, _ => none
  | fuel + 1, s =>
    match s.dropWhile isWsChar with
    | [] => none
    | c :: rest =>
      if c = obrace then
        match rest.dropWhile isWsChar with
        | [] => none
        | c2 :: rest2 =>
          if c2 = cbrace then some (.obj [], rest2)
          else
            match pMembers (pVal fuel) fuel [] (c2 :: rest2) with
            | none => none
            | some (kvs, rest3) => some (.obj kvs, rest3)
      else if c = '[' then
        match rest.dropWhile isWsChar with
        | [] => none
        | c2 :: rest2 =>
          if c2 = ']' then some (.arr [], rest2)
          else
            match pElems (pVal fuel) fuel [] (c2 :: rest2) with
            | none => none
            | some (xs, rest3) => some (.arr xs, rest3)
      else if c = dquote then
        (pStrBody rest).map (fun p => (.str p.1, p.2))
      else if c = 't' ∧ rest.take 3 = "rue".toList then
        some (.bool true, rest.drop 3)
      else if c = 'f' ∧ rest.take 4 = "alse".toList then
        some (.bool false, rest.drop 4)
      else if c = 'n' ∧ rest.take 3 = "ull".toList then
        some (.null, rest.drop 3)
      else
        (pNum (c :: rest)).map (fun p => (.num p.1, p.2))

/-- Model of the Python `json.loads`: one JSON document, possibly
surrounded by whitespace, and nothing else. -/
def jsonLoads (s : Str) : Option Json :=
  match pVal (s.length + 1) s with
  | none => none
  | some (v, rest) => if rest.dropWhile isWsChar = [] then some v else none

/-- Extraction step of `_parse_gemini_response`
(`src/llm_analyzer.py:136-148`): strip the response, locate the first
opening brace and the last closing brace, fail when either is absent,
and slice between them (inclusive).  Mirrors
`json_start = text.find` / `json_end = text.rfind + 1` /
`text[json_start:json_end]`. -/
def extractJsonText (response_text : Str) : Option Str :=
  match pyFind obrace (pyStrip response_text),
        pyRfind cbrace (pyStrip response_text) with
  | some a, some b => some (pySlice (pyStrip response_text) a (b + 1))
  | _, _ => none

/-- Modelled from the spec: the pydantic validation of `LLMAnalysis`
(`src/models.py` is absent from the source tree; the spec states the
invariant — reason trimmed non-empty, confidence in [0.0, 1.0] or
absent — and `tests/test_models.py` asserts a `ValueError` on an empty
or whitespace-only reason and on confidence 1.5 or -0.1).  A non-string
reason or non-numeric confidence is likewise a validation failure. -/
def mkLLMAnalysis (act : ActionType) (rv : Json) (cv : Json) :
    Option LLMAnalysis :=
  match rv with
  | .str r =>
    if pyStrip r = [] then none
    else
      match cv with
      | .num q => if 0 ≤ q ∧ q ≤ 1 then some ⟨act, r, some q⟩ else none
      | .null => some ⟨act, r, none⟩
      | _ => none
  | _ => none

/-- Validation step of `_parse_gemini_response`
(`src/llm_analyzer.py:151-171`): require the decoded document to be an
object carrying `action` and `reason`, require `action` to be one of the
three enum values, default `confidence` to 0.8 when the key is absent,
and build the `LLMAnalysis` (whose own validation may still fail; every
failure is caught and becomes `none`).  A non-object document reaches
`none` through the membership test or a caught `TypeError`. -/
def validateParsed (j : Json) : Option LLMAnalysis :=
  match j with
  | .obj kvs =>
    match jlookup kvs "action".toList, jlookup kvs "reason".toList with
    | some av, some rv =>
      match av with
      | .str a =>
        match strToAction a with
        | some act =>
          mkLLMAnalysis act rv ((jlookup kvs "confidence".toList).getD
            (.num (mkRat 4 5)))
        | none => none
      | _ => none
    | _, _ => none
  | _ => none

/-- Model of `LLMAnalyzer._parse_gemini_response`
(`src/llm_analyzer.py:126-179`): extract the brace-delimited slice,
decode it as JSON, validate; any failure in any stage gives `none` (the
Python code catches every exception and returns `None`). -/
def parseGeminiResponse (response_text : Str) : Option LLMAnalysis :=
  ((extractJsonText response_text).bind jsonLoads).bind validateParsed

/-- Outcome of one `generate_content` call against the classifier
endpoint: either a raised transport error or a returned response text
(possibly empty). -/
inductive GenOutcome where
  | raise
  | text (t : Str)

/-- Body of the `try` block of `LLMAnalyzer.analyze_email`
(`src/llm_analyzer.py:48-66`), before the catch-all handler: propagate a
transport error, return `none` on an empty response, otherwise parse. -/
def analyzeOnce (gen : GenOutcome) : Except Unit (Option LLMAnalysis) :=
  match gen with
  | .raise => .error ()
  | .text t => .ok (if t = [] then none else parseGeminiResponse t)

/-- Model of `LLMAnalyzer.analyze_email` including its
`except Exception: return None` handler (`src/llm_analyzer.py:68-70`):
every exception raised inside the body is converted to `none`. -/
def analyzeCaught (gen : GenOutcome) : Except Unit (Option LLMAnalysis) :=
  match analyzeOnce gen with
  | .error _ => .ok none
  | .ok v => .ok v

/-- Model of the tenacity `retry(stop=stop_after_attempt(n))` decorator:
call the wrapped function with at most `budget + 1` attempts, re-calling
only when an attempt raises, and also report how many calls were made.
`attempt k` is the outcome of the k-th call (0-based). -/
def retryExec (f : Nat → Except Unit (Option LLMAnalysis)) :
    Nat → Nat → Except Unit (Option LLMAnalysis) × Nat
  | k, 0 => (f k, k + 1)
  | k, budget + 1 =>
    match f k with
    | .ok a => (.ok a, k + 1)
    | .error _ => retryExec f (k + 1) budget

/-- Model of the decorated `analyze_email` entry point
(`src/llm_analyzer.py:34-70`): the retry wrapper with
`config.retry_attempts` around the catch-all body, applied to the
per-attempt transport outcomes; the second component is the number of
attempts actually performed. -/
def analyzeEmail (attempts : Nat) (gen : Nat → GenOutcome) :
    Except Unit (Option LLMAnalysis) × Nat :=
  retryExec (fun k => analyzeCaught (gen k)) 0 (attempts - 1)

/-- Value analyze_email settles on from the first attempt alone:
`none` on a raised transport error or an empty response, otherwise the
parse result.  Used to characterise `analyzeEmail`. -/
def analyzeFirstVal (g : GenOutcome) : Option LLMAnalysis :=
  match g with
  | .raise => none
  | .text t => if t = [] then none else parseGeminiResponse t

/-- Audit-log row as written by `EmailDatabase.save_processed_email`
(`src/database.py:49-80`): the ten CSV columns.  `action_taken` is
stored through `.value`, hence a string; `error_message` is stored with
`or ""`, hence a plain (possibly empty) string; `processed_at` is an
integer timestamp standing for the ISO instant. -/
structure CsvRow where
  id : Str
  original_message_id : Str
  original_subject : Str
  original_sender : Str
  processed_at : Int
  action_taken : Str
  reason : Str
  sent_to_team : Str
  success : Bool
  error_message : Str
deriving DecidableEq, Repr

/-- Model of `EmailDatabase.save_processed_email`
(`src/database.py:49-80`): append one row to the CSV file (the returned
`True` of the non-throwing path is implicit). -/
def saveProcessedEmail (db : List CsvRow) (r : CsvRow) : List CsvRow :=
  db ++ [r]

/-- Model of `EmailDatabase.check_duplicate` (`src/database.py:220-243`):
membership of the key in the `original_message_id` column. -/
def checkDuplicate (db : List CsvRow) (message_id : Str) : Bool :=
  db.any (fun row => row.original_message_id = message_id)

/-- Aggregates returned by `get_processing_stats` that the claims are
about (the action/team breakdowns and the 24-hour window count, computed
alongside in the source, are independent of these and are omitted). -/
structure Stats where
  total_processed : Nat
  successful : Nat
  failed : Nat
  success_rate : ℚ
deriving Repr

/-- Model of `EmailDatabase.get_processing_stats`
(`src/database.py:174-218`): an empty log yields the empty dictionary
(`none` here); otherwise the row total, the count of rows with
`success == True`, the count with `success == False`, and the success
rate with its guard against a zero total. -/
def getProcessingStats (db : List CsvRow) : Option Stats :=
  if db.isEmpty then none
  else
    let total := db.length
    let succ := (db.filter (fun r => r.success = true)).length
    let failed := (db.filter (fun r => r.success = false)).length
    some ⟨total, succ, failed,
      if total > 0 then (succ : ℚ) / (total : ℚ) * 100 else 0⟩

/-- Reading of the stats dictionary as its consumers do
(`stats.get(key, 0)` in `src/main.py:129-133`): the empty dictionary
reads as zero counts and a zero rate. -/
def statsOrZero (db : List CsvRow) : Stats :=
  (getProcessingStats db).getD ⟨0, 0, 0, 0⟩

/-- Model of `EmailDatabase.get_processed_emails`
(`src/database.py:101-172`): apply the action filter, the date-range
filters and the count limit in the order of the source.  Python
truthiness makes an empty-string action filter and a zero limit
no-ops (`if action_filter:`, `if limit:`); `df.tail(limit)` keeps the
last rows. -/
def getProcessedEmails (db : List CsvRow) (action_filter : Option Str)
    (date_from date_to : Option Int) (limit : Option Nat) : List CsvRow :=
  let df := db
  let df := match action_filter with
    | some a => if a = [] then df else df.filter (fun r => r.action_taken = a)
    | none => df
  let df := match date_from with
    | some d => df.filter (fun r => d ≤ r.processed_at)
    | none => df
  let df := match date_to with
    | some d => df.filter (fun r => r.processed_at ≤ d)
    | none => df
  match limit with
  | some n => if n = 0 then df else df.drop (df.length - n)
  | none => df

/-- Seconds per day, the unit behind `pd.Timedelta(days=...)`. -/
def secondsPerDay : Int := 86400

/-- Model of `EmailDatabase.cleanup_old_records`
(`src/database.py:302-339`): with `cutoff = now - days_to_keep` days,
keep the rows with `processed_at >= cutoff`, rewrite the store with
them, and return the number of rows dropped. -/
def cleanupOldRecords (db : List CsvRow) (now : Int) (days_to_keep : Nat) :
    List CsvRow × Nat :=
  if db.isEmpty then (db, 0)
  else
    let cutoff := now - (days_to_keep : Int) * secondsPerDay
    let kept := db.filter (fun r => cutoff ≤ r.processed_at)
    (kept, db.length - kept.length)

/-- Cutoff instant used by `cleanupOldRecords`. -/
def cleanupCutoff (now : Int) (days_to_keep : Nat) : Int :=
  now - (days_to_keep : Int) * secondsPerDay

/-- Fetched message, from the `EmailData` data class of `src/models.py`
(absent from the source tree; fields documented by the spec section 3
and by `tests/test_models.py`). -/
structure EmailData where
  message_id : Str
  subject : Str
  sender : Str
  body : Str
  received_date : Int
deriving DecidableEq, Repr

/-- Summary message, from the `SummaryEmail` data class of
`src/models.py` (absent from the source tree; fields documented by the
spec section 3 and `tests/test_models.py`). -/
structure SummaryEmail where
  subject : Str
  body : Str
  recipient : Str
  action_type : Str
  original_alert_subject : Str
deriving DecidableEq, Repr

/-- Configuration values the orchestration path reads
(`src/config.py`): the three team addresses and the tunables. -/
structure Config where
  backend_team_email : Str
  code_team_email : Str
  rehit_team_email : Str
  retry_attempts : Nat
  max_emails_per_batch : Nat
deriving Repr

/-- Model of `Config.get_team_email` (`src/config.py:66-73`): the fixed
three-entry lookup with the backend address as the default. -/
def getTeamEmail (cfg : Config) (action : Str) : Str :=
  if action = "Re-hit".toList then cfg.rehit_team_email
  else if action = "Backend".toList then cfg.backend_team_email
  else if action = "Code".toList then cfg.code_team_email
  else cfg.backend_team_email

/-- Modelled from the spec: `SummaryEmail.from_analysis` of
`src/models.py` (absent from the source tree); the spec says the summary
is derived deterministically from the email, the analysis and the
recipient, and `tests/test_models.py` asserts the subject carries the
action value and the body carries the original subject, reason and
sender. -/
def SummaryEmail.fromAnalysis (e : EmailData) (a : LLMAnalysis)
    (recipient : Str) : SummaryEmail :=
  { subject := "Alert Analysis - Action Required: ".toList ++ a.action.val
      ++ " - ".toList ++ e.subject
    body := "Original Alert Subject: ".toList ++ e.subject
      ++ "\nSender: ".toList ++ e.sender
      ++ "\nRecommended Action: ".toList ++ a.action.val
      ++ "\nReasoning: ".toList ++ a.reason
    recipient := recipient
    action_type := a.action.val
    original_alert_subject := e.subject }

/-- Model of `EmailSender.send_error_notification`
(`src/email_sender.py:185-233`): the synthesized notification addressed
to the backend (fallback) team, carrying the original alert and the
error text. -/
def mkErrorNotification (cfg : Config) (error_message : Str)
    (e : EmailData) : SummaryEmail :=
  { subject := "Alert Processing Error - ".toList ++ e.subject
    body :=
      ("An error occurred while processing the following alert email:").toList
      ++ "\n\nOriginal Alert Subject: ".toList ++ e.subject
      ++ "\nOriginal Sender: ".toList ++ e.sender
      ++ "\nMessage ID: ".toList ++ e.message_id
      ++ "\n\nError Details:\n".toList ++ error_message
    recipient := cfg.backend_team_email
    action_type := "Backend".toList
    original_alert_subject := e.subject }

/-- Environment of one processing cycle: the classifier behaviour per
email, the send outcome per summary, the clock, and the generated record
identifier (a uuid in the source; its value is never inspected). -/
structure World where
  analyze : EmailData → Option LLMAnalysis
  sendOk : SummaryEmail → Bool
  now : Int
  genId : Str → Str

/-- Observable state threaded through a cycle: the audit log, the
error-notification sends attempted, the summary sends attempted, and the
`mark_as_read` calls issued. -/
structure SysState where
  db : List CsvRow
  errorNotifs : List SummaryEmail
  summarySends : List SummaryEmail
  markedRead : List Str
deriving Repr

/-- Per-cycle counters of `process_alerts` (`src/processor.py:64-73`);
the wall-clock fields are outside the model. -/
structure CycleResults where
  processed : Nat
  successful : Nat
  failed : Nat
  skipped : Nat
  errors : List Str
deriving DecidableEq, Repr

/-- Model of `AlertEmailProcessor._process_single_email`
(`src/processor.py:145-247`): classify; on a failed classification send
the error notification and record a failed row with the default Backend
action; otherwise resolve the recipient, send the summary, and record a
failed or successful row accordingly.  Returns the success flag and the
updated state. -/
def processSingleEmail (cfg : Config) (w : World) (e : EmailData)
    (st : SysState) : Bool × SysState :=
  match w.analyze e with
  | none =>
    let errMsg := "LLM analysis failed".toList
    let st1 := { st with
      errorNotifs := st.errorNotifs ++ [mkErrorNotification cfg errMsg e] }
    let row : CsvRow :=
      { id := w.genId e.message_id
        original_message_id := e.message_id
        original_subject := e.subject
        original_sender := e.sender
        processed_at := w.now
        action_taken := "Backend".toList
        reason := "LLM analysis failed".toList
        sent_to_team := cfg.backend_team_email
        success := false
        error_message := errMsg }
    (false, { st1 with db := saveProcessedEmail st1.db row })
  | some analysis =>
    let recipient := getTeamEmail cfg analysis.action.val
    let summary := SummaryEmail.fromAnalysis e analysis recipient
    let sent := w.sendOk summary
    let st1 := { st with summarySends := st.summarySends ++ [summary] }
    if sent then
      let row : CsvRow :=
        { id := w.genId e.message_id
          original_message_id := e.message_id
          original_subject := e.subject
          original_sender := e.sender
          processed_at := w.now
          action_taken := analysis.action.val
          reason := analysis.reason
          sent_to_team := recipient
          success := true
          error_message := [] }
      (true, { st1 with db := saveProcessedEmail st1.db row })
    else
      let row : CsvRow :=
        { id := w.genId e.message_id
          original_message_id := e.message_id
          original_subject := e.subject
          original_sender := e.sender
          processed_at := w.now
          action_taken := analysis.action.val
          reason := analysis.reason
          sent_to_team := recipient
          success := false
          error_message := "Failed to send summary email".toList }
      (false, { st1 with db := saveProcessedEmail st1.db row })

/-- Item loop of `process_alerts` (`src/processor.py:101-117`): process
each email, bump the counters, and mark successfully processed messages
read. -/
def processLoop (cfg : Config) (w : World) :
    List EmailData → CycleResults → SysState → CycleResults × SysState
  | [], res, st => (res, st)
  | e :: rest, res, st =>
    let (ok, st1) := processSingleEmail cfg w e st
    let res1 :=
      if ok then
        { res with processed := res.processed + 1,
                   successful := res.successful + 1 }
      else
        { res with processed := res.processed + 1,
                   failed := res.failed + 1 }
    let st2 :=
      if ok then { st1 with markedRead := st1.markedRead ++ [e.message_id] }
      else st1
    processLoop cfg w rest res1 st2

/-- Model of `AlertEmailProcessor.process_alerts`
(`src/processor.py:54-131`) over an already fetched batch: return
immediately on an empty batch, drop the duplicates (counted as skipped),
return if nothing remains, otherwise run the item loop. -/
def processAlerts (cfg : Config) (w : World) (fetched : List EmailData)
    (st : SysState) : CycleResults × SysState :=
  let res0 : CycleResults := ⟨0, 0, 0, 0, []⟩
  if fetched.isEmpty then (res0, st)
  else
    let toProcess :=
      fetched.filter (fun e => !(checkDuplicate st.db e.message_id))
    let skipped := fetched.length - toProcess.length
    let res1 := { res0 with skipped := skipped }
    if toProcess.isEmpty then (res1, st)
    else processLoop cfg w toProcess res1 st

/-- Decision of `AlertEmailScheduler.run_once`
(`src/scheduler.py:127-144`): `False` when the startup health check
fails, otherwise `successful_count > 0 or processed_count == 0`. -/
def runOnce (healthOk : Bool) (res : CycleResults) : Bool :=
  if !healthOk then false
  else decide (0 < res.successful) || decide (res.processed = 0)

/-- Exit code of the one-shot mode (`src/main.py:96-99`):
`sys.exit(0 if success else 1)` around `run_once`. -/
def mainOnceExit (healthOk : Bool) (res : CycleResults) : Nat :=
  if runOnce healthOk res then 0 else 1

/-- Spec-side reading of the one-shot contract (spec section 6 and claim
text): exit 1 on a failed connectivity test; else exit 0 on a no-op
cycle; else exit 0 exactly when the cycle succeeded (at least one email
processed successfully); otherwise exit 1. -/
def exitCodeSpec (healthOk : Bool) (res : CycleResults) : Nat :=
  if healthOk = false then 1
  else if res.processed = 0 then 0
  else if 0 < res.successful then 0
  else 1

/-- Well-formedness of an analysis value, per the data-model invariant:
the reason is non-whitespace and the confidence, when present, lies in
[0, 1].  The action is one of the three enum values by typing. -/
def wellFormedAnalysis (an : LLMAnalysis) : Prop :=
  pyStrip an.reason ≠ [] ∧ ∀ q, an.confidence = some q → 0 ≤ q ∧ q ≤ 1

/-- Concrete configuration used to instantiate cycle-level statements. -/
def c1Cfg : Config :=
  ⟨"backend@x".toList, "code@x".toList, "rehit@x".toList, 3, 10⟩

/-- Concrete environment in which the classifier yields no analysis. -/
def c1World : World := ⟨fun _ => none, fun _ => true, 5, fun s => s⟩

/-- Concrete unread alert email. -/
def c1Email : EmailData :=
  ⟨"m1".toList, "Alert".toList, "mon@x".toList, "body".toList, 0⟩

/-- Concrete initial state with an empty audit log. -/
def c1State : SysState := ⟨[], [], [], []⟩

/-- Concrete classifier response with a valid action and reason and no
confidence key. -/
def c6WitnessInput : Str :=
  [obrace] ++ "\"action\": \"Re-hit\", \"reason\": \"transient\"".toList
    ++ [cbrace]

/-- Concrete classifier response whose action is outside the enum. -/
def c7WitnessBadAction : Str :=
  [obrace] ++ "\"action\": \"Weird\", \"reason\": \"x\"".toList ++ [cbrace]

/-- Audit-log row with a given timestamp, for concrete read-back
statements. -/
def c9DemoRow (i : Int) : CsvRow :=
  ⟨[], [], [], [], i, [], [], [], true, []⟩

/-- Three-row audit log, for concrete read-back statements. -/
def c9DemoDb : List CsvRow := [c9DemoRow 1, c9DemoRow 2, c9DemoRow 3]

/-- Response whose last closing brace precedes its first opening
brace. -/
def c10BraceSwap : Str := [cbrace] ++ " before ".toList ++ [obrace]

/-- Response whose brace-delimited slice is not valid JSON. -/
def c10Malformed : Str := [obrace] ++ "nonsense".toList ++ [cbrace]

/-- Response whose reason is whitespace only. -/
def c10EmptyReason : Str :=
  [obrace] ++ "\"action\": \"Code\", \"reason\": \"   \"".toList ++ [cbrace]

/-- Response whose confidence exceeds 1. -/
def c10BadConfidence : Str :=
  [obrace]
    ++ ("\"action\": \"Code\", \"reason\": \"ok\", \"confidence\": 1.5").toList
    ++ [cbrace]

/-- Response that parses and validates. -/
def c10Good : Str :=
  [obrace]
    ++ ("\"action\": \"Backend\", \"reason\": \"db timeout\", \"confidence\": 0.85").toList
    ++ [cbrace]

/-- Counting both halves of a boolean split of a list. -/
theorem length_filter_partition {α : Type} (l : List α) (p : α → Bool) :
    (l.filter p).length + (l.filter (fun a => !(p a))).length = l.length := by
  induction l with
  | nil => simp
  | cons a l ih =>
    cases h : p a <;> simp [List.filter_cons, h] <;> omega

/-- C2: for every audit-log state and every record, once
`save_processed_email` has appended the record, `check_duplicate` on its
`original_message_id` answers true — the row is found whatever its
`success` flag (the record is universally quantified, so both flag
values are covered). -/
theorem alertiq_c2_check_duplicate_after_save (db : List CsvRow)
    (r : CsvRow) :
    checkDuplicate (saveProcessedEmail db r) r.original_message_id = true := by
  simp [checkDuplicate, saveProcessedEmail]

/-- C4: reading the statistics dictionary as its consumers do (absent
keys read as zero), the counts satisfy `successful + failed =
total_processed`; the success rate is 0 on a zero total and
`successful / total * 100` otherwise; and the dictionary is empty
exactly on the empty log. -/
theorem alertiq_c4_processing_stats_consistent (db : List CsvRow) :
    (statsOrZero db).successful + (statsOrZero db).failed
        = (statsOrZero db).total_processed
    ∧ (statsOrZero db).success_rate =
        (if (statsOrZero db).total_processed = 0 then 0
         else ((statsOrZero db).successful : ℚ)
           / ((statsOrZero db).total_processed : ℚ) * 100)
    ∧ (getProcessingStats db = none ↔ db = []) := by
  cases db with
  | nil => simp [statsOrZero, getProcessingStats]
  | cons a l =>
    have hpart := length_filter_partition (a :: l) (fun r => r.success)
    have hneg : ((a :: l).filter (fun r => decide (r.success = false))).length
        = ((a :: l).filter (fun r => !r.success)).length := by
      congr 1
      apply List.filter_congr
      intro x _
      cases x.success <;> simp
    have hpos : ((a :: l).filter (fun r => decide (r.success = true))).length
        = ((a :: l).filter (fun r => r.success)).length := by
      congr 1
      apply List.filter_congr
      intro x _
      cases x.success <;> simp
    refine ⟨?_, ?_, ?_⟩
    · simp only [statsOrZero, getProcessingStats, List.isEmpty_cons,
        Bool.false_eq_true, if_false, Option.getD_some]
      rw [hpos, hneg]
      exact hpart
    · simp [statsOrZero, getProcessingStats]
    · simp [getProcessingStats]

/-- C5: `cleanup_old_records` rewrites the log to exactly the rows whose
timestamp is at or after the cutoff `now - days_to_keep` (in order),
reports as removed exactly the number of rows strictly older than the
cutoff, and the row count decreases by exactly that number. -/
theorem alertiq_c5_cleanup_old_records_partition (db : List CsvRow)
    (now : Int) (days_to_keep : Nat) :
    (cleanupOldRecords db now days_to_keep).1
        = db.filter (fun r => cleanupCutoff now days_to_keep ≤ r.processed_at)
    ∧ (cleanupOldRecords db now days_to_keep).2
        = (db.filter
            (fun r => r.processed_at < cleanupCutoff now days_to_keep)).length
    ∧ db.length = (cleanupOldRecords db now days_to_keep).1.length
        + (cleanupOldRecords db now days_to_keep).2 := by
  have hneg : (db.filter
        (fun r => decide (r.processed_at < cleanupCutoff now days_to_keep))).length
      = (db.filter
          (fun r => !(decide (cleanupCutoff now days_to_keep ≤ r.processed_at)))).length := by
    congr 1
    apply List.filter_congr
    intro x _
    by_cases h : cleanupCutoff now days_to_keep ≤ x.processed_at <;>
      simp [h, not_le.symm]
  have hpart := length_filter_partition db
    (fun r => decide (cleanupCutoff now days_to_keep ≤ r.processed_at))
  cases db with
  | nil => simp [cleanupOldRecords]
  | cons a l =>
    have hle : ((a :: l).filter
          (fun r => decide (cleanupCutoff now days_to_keep ≤ r.processed_at))).length
        ≤ (a :: l).length := List.length_filter_le _ _
    refine ⟨?_, ?_, ?_⟩
    · simp [cleanupOldRecords, cleanupCutoff]
    · simp only [cleanupOldRecords, List.isEmpty_cons, Bool.false_eq_true,
        if_false]
      rw [hneg]
      simp only [cleanupCutoff] at hpart ⊢
      omega
    · simp only [cleanupOldRecords, List.isEmpty_cons, Bool.false_eq_true,
        if_false]
      simp only [cleanupCutoff] at hle ⊢
      omega

/-- C8: in one-shot mode the process exit code computed from
`run_once` coincides with the contract reading: 1 on a failed health
check; else 0 on a no-op cycle (nothing processed); else 0 exactly when
the cycle succeeded, meaning at least one email was processed
successfully; otherwise 1. -/
theorem alertiq_c8_one_shot_exit_code (healthOk : Bool)
    (res : CycleResults) :
    mainOnceExit healthOk res = exitCodeSpec healthOk res := by
  cases healthOk <;>
    simp only [mainOnceExit, runOnce, exitCodeSpec] <;>
    split_ifs <;> simp_all

/-- C9: with a positive limit `n`, `get_processed_emails` returns
exactly the last `n` rows of the filtered log (the call without a limit):
the tail of length `min n (length)`, a suffix of the filtered rows — the
most recently appended matching records, not the first `n`. -/
theorem alertiq_c9_limit_returns_tail (db : List CsvRow)
    (af : Option Str) (dfrom dto : Option Int) (n : Nat) (h : 0 < n) :
    getProcessedEmails db af dfrom dto (some n)
        = (getProcessedEmails db af dfrom dto none).drop
            ((getProcessedEmails db af dfrom dto none).length - n)
    ∧ (getProcessedEmails db af dfrom dto (some n)).length
        = min n (getProcessedEmails db af dfrom dto none).length
    ∧ List.IsSuffix (getProcessedEmails db af dfrom dto (some n))
        (getProcessedEmails db af dfrom dto none) := by
  have hn : n ≠ 0 := Nat.pos_iff_ne_zero.mp h
  refine ⟨?_, ?_, ?_⟩
  · simp [getProcessedEmails, hn]
  · simp only [getProcessedEmails, hn, if_false, List.length_drop]
    omega
  · simp only [getProcessedEmails, hn, if_false]
    exact List.drop_suffix _ _

/-- C9 witness: the three-row demo log, limit 2, yields its last two
rows. -/
theorem alertiq_c9_limit_returns_tail_witness :
    0 < 2
    ∧ (getProcessedEmails c9DemoDb none none none (some 2)
        = (getProcessedEmails c9DemoDb none none none none).drop
            ((getProcessedEmails c9DemoDb none none none none).length - 2)
      ∧ (getProcessedEmails c9DemoDb none none none (some 2)).length
          = min 2 (getProcessedEmails c9DemoDb none none none none).length
      ∧ List.IsSuffix (getProcessedEmails c9DemoDb none none none (some 2))
          (getProcessedEmails c9DemoDb none none none none)) :=
  ⟨by norm_num,
   alertiq_c9_limit_returns_tail c9DemoDb none none none 2 (by norm_num)⟩

/-- C3 counterexample: with the classifier transport raising on every
attempt and the configured three retry attempts, `analyze_email` returns
`None` after a single attempt and surfaces no exception — the internal
catch-all converts the transport error to `None` before the retry
decorator can observe it, contradicting the claim that a transport error
is not converted to `None` but retried and eventually surfaced. -/
theorem alertiq_c3_transport_error_converted_cex :
    analyzeEmail 3 (fun _ => GenOutcome.raise) = (Except.ok none, 1) := by
  rfl

/-- C3 amended: `analyze_email` never raises and never retries — for
every retry budget and every sequence of transport outcomes it returns
after exactly one attempt, yielding `None` when that attempt raises a
transport error, when the response text is empty, or when the response
fails to parse or validate, and the parsed analysis otherwise (the value
of the first attempt, `analyzeFirstVal`). -/
theorem alertiq_c3_analyze_email_single_attempt (attempts : Nat)
    (gen : Nat → GenOutcome) :
    analyzeEmail attempts gen = (Except.ok (analyzeFirstVal (gen 0)), 1) := by
  have hb : analyzeCaught (gen 0) = Except.ok (analyzeFirstVal (gen 0)) := by
    cases h : gen 0 <;> simp [analyzeCaught, analyzeOnce, analyzeFirstVal]
  unfold analyzeEmail
  cases attempts - 1 with
  | zero => simp [retryExec, hb]
  | succ m => simp [retryExec, hb]

/-- Membership in the enum value list determines the action. -/
theorem strToAction_val (a : Str) (act : ActionType)
    (h : strToAction a = some act) : a = act.val := by
  unfold strToAction at h
  split_ifs at h with h1 h2 h3
  · injection h with h4
    subst h4
    simpa [ActionType.val] using h1
  · injection h with h4
    subst h4
    simpa [ActionType.val] using h2
  · injection h with h4
    subst h4
    simpa [ActionType.val] using h3

/-- Characters of a stripped string come from the original string. -/
theorem mem_of_mem_pyStrip (c : Char) (s : Str) (h : c ∈ pyStrip s) :
    c ∈ s := by
  unfold pyStrip at h
  rw [List.mem_reverse] at h
  have h1 := (List.dropWhile_sublist isWsChar).mem h
  rw [List.mem_reverse] at h1
  exact (List.dropWhile_sublist isWsChar).mem h1

/-- A character scan finds nothing when the character is absent. -/
theorem findIdx_ne_eq_none (c : Char) (s : Str) (h : c ∉ s) :
    s.findIdx? (fun x => x = c) = none := by
  induction s with
  | nil => rfl
  | cons a l ih =>
    simp only [List.mem_cons, not_or] at h
    simp [List.findIdx?_cons, ih h.2]
    exact fun hh => h.1 hh.symm

/-- Validation only ever produces a well-formed analysis. -/
theorem mkLLMAnalysis_wellFormed (act : ActionType) (rv cv : Json)
    (an : LLMAnalysis) (h : mkLLMAnalysis act rv cv = some an) :
    wellFormedAnalysis an := by
  unfold mkLLMAnalysis at h
  split at h
  case _ r =>
    by_cases hr : pyStrip r = []
    · rw [if_pos hr] at h
      exact Option.noConfusion h
    · rw [if_neg hr] at h
      split at h
      case _ q =>
        by_cases hb : 0 ≤ q ∧ q ≤ 1
        · rw [if_pos hb] at h
          injection h with h2
          subst h2
          exact ⟨hr, fun q2 hq => by injection hq with hq2; subst hq2; exact hb⟩
        · rw [if_neg hb] at h
          exact Option.noConfusion h
      case _ =>
        injection h with h2
        subst h2
        exact ⟨hr, fun q2 hq => by simp at hq⟩
      case _ =>
        exact Option.noConfusion h
  case _ =>
    exact Option.noConfusion h

/-- Validation of a decoded document only ever produces a well-formed
analysis. -/
theorem validateParsed_wellFormed (j : Json) (an : LLMAnalysis)
    (h : validateParsed j = some an) : wellFormedAnalysis an := by
  unfold validateParsed at h
  split at h
  all_goals try exact Option.noConfusion h
  split at h
  all_goals try exact Option.noConfusion h
  split at h
  all_goals try exact Option.noConfusion h
  split at h
  all_goals try exact Option.noConfusion h
  exact mkLLMAnalysis_wellFormed _ _ _ _ h

/-- C6: whenever the brace-delimited slice of the response decodes to a
JSON object whose `action` is one of the three enum values, whose
`reason` is a non-whitespace string, and which carries no `confidence`
key, parsing yields an analysis whose confidence is the default 0.8. -/
theorem alertiq_c6_confidence_default (t : Str) (kvs : List (Str × Json))
    (a r : Str) (act : ActionType)
    (h1 : (extractJsonText t).bind jsonLoads = some (Json.obj kvs))
    (h2 : jlookup kvs ("action".toList) = some (Json.str a))
    (h3 : strToAction a = some act)
    (h4 : jlookup kvs ("reason".toList) = some (Json.str r))
    (h5 : pyStrip r ≠ [])
    (h6 : jlookup kvs ("confidence".toList) = none) :
    parseGeminiResponse t = some ⟨act, r, some ((4 : ℚ) / 5)⟩ := by
  have hmk : mkRat (4 : Int) (5 : Nat) = (4 : ℚ) / 5 := by
    rw [Rat.mkRat_eq_div]
    norm_num
  have hb : (0 : ℚ) ≤ mkRat 4 5 ∧ mkRat 4 5 ≤ 1 := by
    rw [hmk]
    norm_num
  unfold parseGeminiResponse
  rw [h1]
  simp only [Option.some_bind]
  unfold validateParsed
  dsimp only
  rw [h2, h4]
  dsimp only
  rw [h3]
  dsimp only
  rw [h6]
  simp only [Option.getD_none]
  unfold mkLLMAnalysis
  dsimp only
  rw [if_neg h5, if_pos hb, hmk]

/-- C6 witness: a concrete response with action `Re-hit`, reason
`transient` and no confidence key parses to the default confidence
0.8. -/
theorem alertiq_c6_confidence_default_witness :
    parseGeminiResponse c6WitnessInput
      = some ⟨ActionType.rehit, "transient".toList, some ((4 : ℚ) / 5)⟩ :=
  alertiq_c6_confidence_default c6WitnessInput
    [("action".toList, Json.str ("Re-hit".toList)),
     ("reason".toList, Json.str ("transient".toList))]
    ("Re-hit".toList) ("transient".toList) ActionType.rehit
    (by rfl) (by rfl) (by rfl) (by rfl) (by decide) (by rfl)

/-- C7: parsing yields no result when the decoded object carries an
`action` value outside the three enum values, and likewise when the
response text has no opening brace or no closing brace (so no JSON
object can be delimited). -/
theorem alertiq_c7_invalid_action_or_no_braces :
    (∀ (t : Str) (kvs : List (Str × Json)) (av : Json),
        (extractJsonText t).bind jsonLoads = some (Json.obj kvs) →
        jlookup kvs ("action".toList) = some av →
        (∀ act : ActionType, av ≠ Json.str act.val) →
        parseGeminiResponse t = none)
    ∧ (∀ t : Str, obrace ∉ t ∨ cbrace ∉ t → parseGeminiResponse t = none) := by
  constructor
  · intro t kvs av h1 h2 hout
    unfold parseGeminiResponse
    rw [h1]
    simp only [Option.some_bind]
    unfold validateParsed
    dsimp only
    rw [h2]
    cases hr : jlookup kvs ("reason".toList) with
    | none => rfl
    | some rv =>
      cases av with
      | str a =>
        cases hs : strToAction a with
        | none => dsimp only; rw [hs]
        | some act =>
          exfalso
          exact hout act (by rw [strToAction_val a act hs])
      | null => rfl
      | bool b => rfl
      | num q => rfl
      | arr xs => rfl
      | obj o => rfl
  · intro t h
    unfold parseGeminiResponse extractJsonText
    cases h with
    | inl ho =>
      have h2 : obrace ∉ pyStrip t := fun hm => ho (mem_of_mem_pyStrip _ _ hm)
      have h3 : pyFind obrace (pyStrip t) = none :=
        findIdx_ne_eq_none obrace (pyStrip t) h2
      rw [h3]
      cases pyRfind cbrace (pyStrip t) <;> rfl
    | inr hc =>
      have h2 : cbrace ∉ (pyStrip t).reverse := by
        rw [List.mem_reverse]
        exact fun hm => hc (mem_of_mem_pyStrip _ _ hm)
      have h3 : pyRfind cbrace (pyStrip t) = none := by
        unfold pyRfind
        rw [findIdx_ne_eq_none cbrace (pyStrip t).reverse h2]
        rfl
      rw [h3]
      cases pyFind obrace (pyStrip t) <;> rfl

/-- C7 witness: a concrete response whose action value is `Weird`
parses to nothing, and a concrete braceless response parses to
nothing. -/
theorem alertiq_c7_invalid_action_or_no_braces_witness :
    parseGeminiResponse c7WitnessBadAction = none
    ∧ parseGeminiResponse ("no json here".toList) = none :=
  ⟨alertiq_c7_invalid_action_or_no_braces.1 c7WitnessBadAction
      [("action".toList, Json.str ("Weird".toList)),
       ("reason".toList, Json.str ("x".toList))]
      (Json.str ("Weird".toList)) (by rfl) (by rfl)
      (by intro act; cases act <;> simp [ActionType.val]),
   alertiq_c7_invalid_action_or_no_braces.2 ("no json here".toList)
      (Or.inl (by decide))⟩

/-- C10: `_parse_gemini_response` is total — every input yields either a
well-formed analysis (reason non-whitespace, confidence bounded when
present, action in the enum by typing) or nothing, and in particular a
response whose last closing brace precedes its first opening brace, one
with malformed JSON between its braces, one with a whitespace-only
reason, and one with an out-of-range confidence all yield nothing, while
a well-formed response yields an analysis. -/
theorem alertiq_c10_parse_total_or_none :
    (∀ (t : Str) (an : LLMAnalysis),
        parseGeminiResponse t = some an → wellFormedAnalysis an)
    ∧ parseGeminiResponse c10BraceSwap = none
    ∧ parseGeminiResponse c10Malformed = none
    ∧ parseGeminiResponse c10EmptyReason = none
    ∧ parseGeminiResponse c10BadConfidence = none
    ∧ parseGeminiResponse c10Good
        = some ⟨ActionType.backend, "db timeout".toList, some (mkRat 17 20)⟩ := by
  refine ⟨?_, by rfl, by rfl, by rfl, by rfl, by rfl⟩
  intro t an h
  unfold parseGeminiResponse at h
  obtain ⟨j, hj, hv⟩ := Option.bind_eq_some.mp h
  exact validateParsed_wellFormed j an hv

/-- C10 witness: the analysis produced from the well-formed concrete
response is well-formed. -/
theorem alertiq_c10_parse_total_or_none_witness :
    wellFormedAnalysis
      ⟨ActionType.backend, "db timeout".toList, some (mkRat 17 20)⟩ :=
  alertiq_c10_parse_total_or_none.1 c10Good
    ⟨ActionType.backend, "db timeout".toList, some (mkRat 17 20)⟩ (by rfl)

/-- C1: a cycle over exactly one fetched unread email whose key is not
yet in the audit log, in an environment where the classifier analysis
yields nothing, returns the counters `processed=1, successful=0,
failed=1, skipped=0`; appends exactly one audit row, with
`success=false`, the default `Backend` action and a non-empty error
message; attempts exactly one error-notification send, addressed to the
backend (fallback) team; and never calls `mark_as_read`. -/
theorem alertiq_c1_failed_analysis_cycle (cfg : Config) (w : World)
    (e : EmailData) (st : SysState)
    (h1 : w.analyze e = none)
    (h2 : checkDuplicate st.db e.message_id = false) :
    (processAlerts cfg w [e] st).1
        = { processed := 1, successful := 0, failed := 1, skipped := 0,
            errors := [] }
    ∧ (∃ row : CsvRow,
        (processAlerts cfg w [e] st).2.db = st.db ++ [row]
        ∧ row.success = false
        ∧ row.action_taken = "Backend".toList
        ∧ row.error_message ≠ [])
    ∧ (∃ n : SummaryEmail,
        (processAlerts cfg w [e] st).2.errorNotifs = st.errorNotifs ++ [n]
        ∧ n.recipient = cfg.backend_team_email)
    ∧ (processAlerts cfg w [e] st).2.markedRead = st.markedRead := by
  have H : processAlerts cfg w [e] st =
      (⟨1, 0, 1, 0, []⟩,
       { db := st.db ++ [⟨w.genId e.message_id, e.message_id, e.subject,
            e.sender, w.now, "Backend".toList, "LLM analysis failed".toList,
            cfg.backend_team_email, false, "LLM analysis failed".toList⟩],
         errorNotifs := st.errorNotifs
           ++ [mkErrorNotification cfg ("LLM analysis failed".toList) e],
         summarySends := st.summarySends,
         markedRead := st.markedRead }) := by
    simp [processAlerts, processLoop, processSingleEmail, h1, h2,
      saveProcessedEmail]
  rw [H]
  refine ⟨rfl, ⟨_, rfl, rfl, rfl, ?_⟩, ⟨_, rfl, rfl⟩, rfl⟩
  simp

/-- C1 witness: the concrete one-email cycle with an empty audit log and
a classifier that yields nothing shows all four conclusions. -/
theorem alertiq_c1_failed_analysis_cycle_witness :
    (processAlerts c1Cfg c1World [c1Email] c1State).1
        = { processed := 1, successful := 0, failed := 1, skipped := 0,
            errors := [] }
    ∧ (∃ row : CsvRow,
        (processAlerts c1Cfg c1World [c1Email] c1State).2.db
            = c1State.db ++ [row]
        ∧ row.success = false
        ∧ row.action_taken = "Backend".toList
        ∧ row.error_message ≠ [])
    ∧ (∃ n : SummaryEmail,
        (processAlerts c1Cfg c1World [c1Email] c1State).2.errorNotifs
            = c1State.errorNotifs ++ [n]
        ∧ n.recipient = c1Cfg.backend_team_email)
    ∧ (processAlerts c1Cfg c1World [c1Email] c1State).2.markedRead
        = c1State.markedRead :=
  alertiq_c1_failed_analysis_cycle c1Cfg c1World c1Email c1State
    (by rfl) (by rfl)
